import Mathlib

/-!
Verification of the tunnel-go tunnel orchestration and resolution engine.

This file gives a shallow embedding, in Lean, of the core functions of the
repository: the configuration value resolver (pkg/config, ConfigValue.GetValue),
the local port allocator (findAvailablePort / isPortAvailable), the jumphost
selector (pkg/aws Client.GetJumphost), the tunnel orchestrator
(Manager.CreateTunnel / CreateTunnels), the service detail query
(Manager.GetServiceDetails) and the session registry cleanup
(Manager.CleanupTunnels).

External effects are represented by explicit oracle functions collected in a
World structure: the SSM parameter store, the EC2 describe-instances call, the
local bind probe used by the port allocator, and the subprocess launcher.
Observable side effects (remote calls, process launches) are returned as an
explicit event trace so that claims about call counts can be stated and proved.

Go machine integers are modelled as Int (port values stay far from the 64-bit
boundary, so wraparound never matters for these functions); Go strings as
String; Go maps as association lists with insert-or-overwrite update; fallible
Go functions returning (T, error) as Except String T.
-/

deriving instance DecidableEq for Except

namespace TunnelGo

/-! ## String helpers: Go strings.ReplaceAll and strings.Split

Modelled on character lists with a fuel argument equal to the input length,
so that the kernel can evaluate them on concrete inputs.  Go semantics:
ReplaceAll replaces every non-overlapping occurrence left to right; Split
with a non-empty separator never returns an empty list.
-/

/-- Does the pattern occur at the head of the character list? -/
def matchesAt : List Char → List Char → Bool
  | [], _ => true
  | _ :: _, [] => false
  | p :: ps, c :: cs => p == c && matchesAt ps cs

/-- Character-list worker for Go strings.ReplaceAll (non-empty pattern). -/
def replaceAllChars (pat rep : List Char) : Nat → List Char → List Char
  | 0, s => s
  | _, [] => []
  | fuel + 1, c :: rest =>
    if pat.length > 0 && matchesAt pat (c :: rest) then
      rep ++ replaceAllChars pat rep fuel ((c :: rest).drop pat.length)
    else
      c :: replaceAllChars pat rep fuel rest

/-- Go strings.ReplaceAll. -/
def replaceAll (s pat rep : String) : String :=
  String.mk (replaceAllChars pat.data rep.data s.data.length s.data)

/-- Character-list worker for Go strings.Split (non-empty separator). -/
def splitChars (sep : List Char) : Nat → List Char → List Char → List (List Char)
  | 0, s, acc => [acc.reverse ++ s]
  | _, [], acc => [acc.reverse]
  | fuel + 1, c :: rest, acc =>
    if sep.length > 0 && matchesAt sep (c :: rest) then
      acc.reverse :: splitChars sep fuel ((c :: rest).drop sep.length) []
    else
      splitChars sep fuel rest (c :: acc)

/-- Go strings.Split. -/
def goSplit (s sep : String) : List String :=
  (splitChars sep.data s.data.length s.data []).map String.mk

/-- The literal placeholder token substituted throughout the source:
the Go code always replaces the string noted here. -/
def placeholderToken : String := "${PLACEHOLDER}"

/-! ## Observable events

Every remote or process-level side effect performed by the embedded code is
recorded in an event trace, so that claims about the number and order of
external calls are provable. -/

/-- An observable external side effect. -/
inductive Event where
  | paramCall (path : String)
  | describeCall (filter : String)
  | startProc (target : String) (host : String) (remotePort : String) (localPort : Int)
  deriving DecidableEq, Repr

/-! ## pkg/config: ConfigValue and GetValue -/

/-- Go struct ConfigValue (pkg/config): a value that is either a direct
value or an SSM parameter reference. -/
structure ConfigValue where
  Value : String
  SSMParam : String
  deriving DecidableEq, Repr

/-- Go struct PortRange (pkg/config). -/
structure PortRange where
  Start : Int
  End : Int
  deriving DecidableEq, Repr

/-- Go struct ServiceConfig (pkg/config). -/
structure ServiceConfig where
  Host : ConfigValue
  RemotePort : ConfigValue
  LocalPortRange : PortRange
  ServiceDetails : List String
  deriving DecidableEq, Repr

/-- The fields of the Go Config struct used by the tunnel manager:
the jumphost filter template and the service map. -/
structure Config where
  JumphostFilter : String
  Services : List (String × ServiceConfig)
  deriving DecidableEq, Repr

/-- ConfigValue.GetValue (pkg/config/config.go).  The SSM client is the
oracle `store`; the second Go argument (named placeholder there, the
environment string at every call site) is `placeholder` here.  The returned
event list records each remote store call that was made. -/
def GetValue (cv : ConfigValue) (store : String → Except String String)
    (placeholder : String) : Except String String × List Event :=
  if cv.SSMParam ≠ "" ∧ cv.Value ≠ "" then
    (.error "cannot specify both value and SSM parameter", [])
  else if cv.SSMParam ≠ "" then
    let paramPath := replaceAll cv.SSMParam placeholderToken placeholder
    (store paramPath, [.paramCall paramPath])
  else if cv.Value ≠ "" then
    (.ok cv.Value, [])
  else
    (.error "no value or SSM parameter specified", [])

/-- Config.GetJumphostFilter (pkg/config/config.go). -/
def GetJumphostFilter (cfg : Config) (env : String) : String :=
  replaceAll cfg.JumphostFilter placeholderToken env

/-- Config.GetServiceConfig (pkg/config/config.go). -/
def GetServiceConfig (cfg : Config) (serviceName : String) : Except String ServiceConfig :=
  match cfg.Services.lookup serviceName with
  | some sc => .ok sc
  | none => .error s!"unknown service: {serviceName}"

/-! ## Go map model

Go map assignment is insert-or-overwrite; lookup returns the value stored
under the key, if any.  Modelled as an association list with at most one
entry per key. -/

/-- Go map assignment m[k] = v. -/
def mapInsert : List (String × α) → String → α → List (String × α)
  | [], k, v => [(k, v)]
  | (k1, v1) :: rest, k, v =>
    if k1 = k then (k, v) :: rest else (k1, v1) :: mapInsert rest k v

/-- Go map lookup m[k]. -/
def getKey : List (String × α) → String → Option α
  | [], _ => none
  | (k1, v) :: rest, k => if k1 = k then some v else getKey rest k

/-! ## Port allocator (pkg/tunnel, findAvailablePort)

The live bind probe performed by isPortAvailable (net.Listen on the port,
closed immediately) is the oracle `avail`.  The Go loop
for port := start; port <= end; port++ runs (end - start + 1) iterations
when start ≤ end and none otherwise. -/

/-- The scanning loop of findAvailablePort, one fuel unit per candidate port. -/
def findAvailablePortAux (avail : Int → Bool) : Nat → Int → Option Int
  | 0, _ => none
  | n + 1, port => if avail port then some port else findAvailablePortAux avail n (port + 1)

/-- findAvailablePort (pkg/tunnel/tunnel.go): first bindable port in the
inclusive range, in ascending order. -/
def findAvailablePort (avail : Int → Bool) (start e : Int) : Except String Int :=
  match findAvailablePortAux avail (e + 1 - start).toNat start with
  | some p => .ok p
  | none => .error s!"no available ports in range {start}-{e}"

/-! ## Jumphost selector (pkg/aws, Client.GetJumphost) -/

/-- The fields of an EC2 instance used by the code: the id and the state
name (None models a nil State pointer). -/
structure Instance where
  InstanceId : String
  State : Option String
  deriving DecidableEq, Repr

/-- Client.GetJumphost (pkg/aws/client.go): substitute the environment into
the filter, describe running instances, keep those whose state is running,
fail when none remain, otherwise pick one at random (the random draw is the
oracle `rnd`, reduced modulo the candidate count as rand.Intn is). -/
def clientGetJumphost (describe : String → Except String (List Instance)) (rnd : Nat)
    (env filter : String) : Except String Instance :=
  let f := replaceAll filter placeholderToken env
  match describe f with
  | .error e => .error s!"failed to describe instances: {e}"
  | .ok out =>
    let instances := out.filter (fun i => i.State == some "running")
    if instances.isEmpty then
      .error s!"no running instances found matching filter: {f}"
    else
      .ok (instances.getD (rnd % instances.length) { InstanceId := "", State := none })

/-! ## Tunnel orchestrator (pkg/tunnel, Manager) -/

/-- The external collaborators of the manager, as oracles:
the SSM parameter store, the EC2 describe call, the random draw for jumphost
selection, the local bind probe, and the subprocess launcher (cmd.Start). -/
structure World where
  store : String → Except String String
  describe : String → Except String (List Instance)
  rnd : Nat
  avail : Int → Bool
  launch : String → String → String → Int → Except String Unit

/-- The arguments of a spawned forwarding session, stored in the registry:
target instance id, remote host, remote port, local port (the value stored
by m.tunnels.Store, abstracting the exec.Cmd handle). -/
structure TunnelArgs where
  target : String
  host : String
  remotePort : String
  localPort : Int
  deriving DecidableEq, Repr

/-- The mutable state of a Manager: the cached jumphost and the session
registry (sync.Map from service name to the running command). -/
structure ManagerState where
  jumphost : Option Instance
  tunnels : List (String × TunnelArgs)
  deriving DecidableEq, Repr

/-- Manager.GetJumphost (pkg/tunnel/tunnel.go): apply the config filter
template and delegate to the AWS client. -/
def managerGetJumphost (w : World) (cfg : Config) (env : String) : Except String Instance :=
  clientGetJumphost w.describe w.rnd env (GetJumphostFilter cfg env)

/-- The filter string the describe call receives for a given config and
environment: the template with the placeholder substituted (the manager
substitutes once, the client substitutes again). -/
def substFilter (cfg : Config) (env : String) : String :=
  replaceAll (GetJumphostFilter cfg env) placeholderToken env

/-- The tail of Manager.CreateTunnel after host, port and jumphost are in
hand: allocate a local port, start the forwarding subprocess, and on success
register the session under the service name.  Returns the new state, the
result and the trace of the observable effects of this tail. -/
def createTunnelRest (w : World) (st : ManagerState) (serviceName : String)
    (sc : ServiceConfig) (inst : Instance) (host remotePort : String) :
    ManagerState × Except String Unit × List Event :=
  match findAvailablePort w.avail sc.LocalPortRange.Start sc.LocalPortRange.End with
  | .error e => (st, .error s!"failed to find available port for {serviceName}: {e}", [])
  | .ok localPort =>
    match w.launch inst.InstanceId host remotePort localPort with
    | .error e =>
      (st, .error s!"failed to start AWS CLI command: {e}",
        [.startProc inst.InstanceId host remotePort localPort])
    | .ok _ =>
      ({ st with
          tunnels := mapInsert st.tunnels serviceName
            (TunnelArgs.mk inst.InstanceId host remotePort localPort) },
        .ok (), [.startProc inst.InstanceId host remotePort localPort])

/-- Manager.CreateTunnel (pkg/tunnel/tunnel.go): resolve host and remote
port, resolve the jumphost if not already cached, allocate a local port,
start the session process and register it. -/
def CreateTunnel (w : World) (env : String) (cfg : Config) (st : ManagerState)
    (serviceName : String) (sc : ServiceConfig) :
    ManagerState × Except String Unit × List Event :=
  match GetValue sc.Host w.store env with
  | (.error e, tr1) => (st, .error s!"failed to get host for {serviceName}: {e}", tr1)
  | (.ok host, tr1) =>
    match GetValue sc.RemotePort w.store env with
    | (.error e, tr2) =>
      (st, .error s!"failed to get remote port for {serviceName}: {e}", tr1 ++ tr2)
    | (.ok remotePort, tr2) =>
      match st.jumphost with
      | some inst =>
        match createTunnelRest w st serviceName sc inst host remotePort with
        | (st2, r, tr3) => (st2, r, tr1 ++ tr2 ++ tr3)
      | none =>
        match managerGetJumphost w cfg env with
        | .error e =>
          (st, .error s!"failed to find jumphost instance: {e}",
            tr1 ++ tr2 ++ [.describeCall (substFilter cfg env)])
        | .ok inst =>
          match createTunnelRest w { st with jumphost := some inst } serviceName sc inst
              host remotePort with
          | (st2, r, tr3) =>
            (st2, r, tr1 ++ tr2 ++ [.describeCall (substFilter cfg env)] ++ tr3)

/-- The per-service loop of Manager.CreateTunnels: look up each service
config and attempt its tunnel; any failure is logged, recorded as the last
error and the loop continues with the next service. -/
def createLoop (w : World) (env : String) (cfg : Config) :
    List String → ManagerState → Option String →
    ManagerState × Option String × List Event
  | [], st, lastError => (st, lastError, [])
  | serviceName :: rest, st, lastError =>
    match GetServiceConfig cfg serviceName with
    | .error e => createLoop w env cfg rest st (some e)
    | .ok sc =>
      match CreateTunnel w env cfg st serviceName sc with
      | (st1, .ok _, tr1) =>
        match createLoop w env cfg rest st1 lastError with
        | (st2, le, tr2) => (st2, le, tr1 ++ tr2)
      | (st1, .error e, tr1) =>
        match createLoop w env cfg rest st1 (some e) with
        | (st2, le, tr2) => (st2, le, tr1 ++ tr2)

/-- Manager.CreateTunnels (pkg/tunnel/tunnel.go): resolve the jumphost once
up front (hard failure aborts the whole batch), then attempt every service
in order, remembering the last per-service error; if any service failed the
call returns a single wrapping error. -/
def CreateTunnels (w : World) (env : String) (cfg : Config) (st : ManagerState)
    (services : List String) : ManagerState × Except String Unit × List Event :=
  match managerGetJumphost w cfg env with
  | .error e =>
    (st, .error s!"failed to find jumphost instance: {e}",
      [.describeCall (substFilter cfg env)])
  | .ok inst =>
    match createLoop w env cfg services { st with jumphost := some inst } none with
    | (st2, lastError, tr2) =>
      match lastError with
      | none => (st2, .ok (), .describeCall (substFilter cfg env) :: tr2)
      | some e =>
        (st2, .error s!"one or more tunnels failed to create: {e}",
          .describeCall (substFilter cfg env) :: tr2)

/-! ## Service detail query (pkg/tunnel, Manager.GetServiceDetails) -/

/-- An SSM parameter as returned by the batched fetch: name and value are
both nullable pointers in the SDK type. -/
structure Param where
  Name : Option String
  Value : Option String
  deriving DecidableEq, Repr

/-- The key under which a fetched parameter is stored: the last
slash-separated segment of its full name (strings.Split never returns an
empty list, so the branch guarding on a non-empty split always fires). -/
def lastSegment (n : String) : String :=
  (goSplit n "/").getLastD n

/-- The merge loop of GetServiceDetails: each fetched parameter with
non-nil name and value is stored under the last segment of its name,
overwriting any earlier entry with the same key. -/
def mergeParams (details : List (String × String)) (params : List Param) :
    List (String × String) :=
  params.foldl
    (fun d p =>
      match p.Name, p.Value with
      | some n, some v => mapInsert d (lastSegment n) v
      | _, _ => d)
    details

/-- The formatted local port range string added to the detail map. -/
def portRangeStr (sc : ServiceConfig) : String :=
  let a := sc.LocalPortRange.Start
  let b := sc.LocalPortRange.End
  s!"{a}-{b}"

/-- Manager.GetServiceDetails (pkg/tunnel/tunnel.go): resolve host and
remote port (each failure fatal), then, when extra detail paths are
configured, substitute the environment into each path and fetch them in one
batched call; a batch failure is non-fatal and returns the map built so far
(host and remote port only).  On the non-failing paths the local port range
string is added last. -/
def GetServiceDetails (store : String → Except String String)
    (getParams : List String → Except String (List Param))
    (env : String) (sc : ServiceConfig) : Except String (List (String × String)) :=
  match (GetValue sc.Host store env).1 with
  | .error e => .error s!"failed to get host: {e}"
  | .ok host =>
    match (GetValue sc.RemotePort store env).1 with
    | .error e => .error s!"failed to get remote port: {e}"
    | .ok remotePort =>
      let details := mapInsert (mapInsert [] "host" host) "remote_port" remotePort
      if sc.ServiceDetails.length > 0 then
        let paramPaths := sc.ServiceDetails.map
          (fun path => replaceAll path placeholderToken env)
        match getParams paramPaths with
        | .error _ => .ok details
        | .ok parameters =>
          .ok (mapInsert (mergeParams details parameters) "local_port_range" (portRangeStr sc))
      else
        .ok (mapInsert details "local_port_range" (portRangeStr sc))

/-! ## Session registry cleanup (pkg/tunnel, Manager.CleanupTunnels)

The Go code iterates the registry with sync.Map.Range; the callback kills
the stored process and, on a kill error, records it as lastErr and returns
false, which stops the Range iteration immediately.  The kill outcome for
each stored command is the oracle `kill`.  Besides the returned error the
model also returns the list of session keys whose processes a kill was
attempted on, in iteration order, so that claims about which sessions were
reached are provable. -/

/-- Manager.CleanupTunnels (pkg/tunnel/tunnel.go). -/
def CleanupTunnels (kill : TunnelArgs → Except String Unit) :
    List (String × TunnelArgs) → Option String × List String
  | [] => (none, [])
  | (name, cmd) :: rest =>
    match kill cmd with
    | .error e => (some s!"failed to kill tunnel process: {e}", [name])
    | .ok _ =>
      let (lastErr, ks) := CleanupTunnels kill rest
      (lastErr, name :: ks)

/-! ## Concrete fixtures used by the witnesses -/

/-- A concrete running instance. -/
def exInstance : Instance := { InstanceId := "i-0abc", State := some "running" }

/-- A concrete stopped instance. -/
def exStopped : Instance := { InstanceId := "i-1", State := some "stopped" }

/-- A concrete service config with literal host and port. -/
def exScA : ServiceConfig :=
  { Host := { Value := "hostA", SSMParam := "" }
    RemotePort := { Value := "3306", SSMParam := "" }
    LocalPortRange := { Start := 5000, End := 5009 }
    ServiceDetails := [] }

/-- A concrete service config whose host is a parameter reference. -/
def exScB : ServiceConfig :=
  { Host := { Value := "", SSMParam := "/test/svcB/host" }
    RemotePort := { Value := "5432", SSMParam := "" }
    LocalPortRange := { Start := 5000, End := 5009 }
    ServiceDetails := [] }

/-- A concrete world: the store fails on the svcB host path, one running
instance matches the filter, port 5000 is free, launches succeed. -/
def exWorld : World :=
  { store := fun p =>
      if p = "/test/svcB/host" then .error "parameter not found" else .ok "v"
    describe := fun _ => .ok [exInstance]
    rnd := 0
    avail := fun p => p == 5000
    launch := fun _ _ _ _ => .ok () }

/-- A world whose describe call finds only a stopped instance. -/
def exWorldStopped : World :=
  { exWorld with describe := fun _ => .ok [exStopped] }

/-- A concrete two-service configuration. -/
def exConfig : Config :=
  { JumphostFilter := "${PLACEHOLDER}-ecs"
    Services := [("svcA", exScA), ("svcB", exScB)] }

/-- The manager state after a successful creation of the svcA tunnel. -/
def exStA : ManagerState :=
  { jumphost := some exInstance
    tunnels := [("svcA", TunnelArgs.mk "i-0abc" "hostA" "3306" 5000)] }

/-! ## Theorems -/

/-- Go map lookup after assignment: the assigned key reads back its new
value, every other key is unaffected. -/
theorem getKey_mapInsert (m : List (String × α)) (k : String) (v : α) (q : String) :
    getKey (mapInsert m k v) q = if q = k then some v else getKey m q := by
  induction m with
  | nil =>
    by_cases h : q = k
    · subst h
      simp [mapInsert, getKey]
    · have h2 : ¬k = q := fun hh => h hh.symm
      simp [mapInsert, getKey, h, h2]
  | cons p rest ih =>
    obtain ⟨k1, v1⟩ := p
    by_cases hk : k1 = k
    · subst hk
      by_cases hq : k1 = q
      · subst hq
        simp [mapInsert, getKey]
      · have hq2 : ¬q = k1 := fun hh => hq hh.symm
        simp [mapInsert, getKey, hq, hq2]
    · by_cases hq : k1 = q
      · subst hq
        simp [mapInsert, getKey, hk]
      · have hq2 : ¬q = k1 := fun hh => hq hh.symm
        simp [mapInsert, getKey, hk, hq, hq2, ih]

/-- Claim C5: with both the inline literal and the parameter reference set,
GetValue fails with the conflicting-source error and makes no remote call;
with neither set it fails with the missing-source error and makes no remote
call. -/
theorem getValue_conflicting_and_missing (cv : ConfigValue)
    (store : String → Except String String) (placeholder : String) :
    (cv.Value ≠ "" → cv.SSMParam ≠ "" →
      GetValue cv store placeholder =
        (.error "cannot specify both value and SSM parameter", [])) ∧
    (cv.Value = "" → cv.SSMParam = "" →
      GetValue cv store placeholder =
        (.error "no value or SSM parameter specified", [])) := by
  constructor
  · intro hv hs
    simp [GetValue, hv, hs]
  · intro hv hs
    simp [GetValue, hv, hs]

/-- Witness for C5 at concrete inputs: both-set and neither-set. -/
theorem getValue_conflicting_and_missing_witness :
    GetValue { Value := "v", SSMParam := "/p" } (fun _ => .ok "x") "e" =
      (.error "cannot specify both value and SSM parameter", []) ∧
    GetValue { Value := "", SSMParam := "" } (fun _ => .ok "x") "e" =
      (.error "no value or SSM parameter specified", []) :=
  ⟨(getValue_conflicting_and_missing { Value := "v", SSMParam := "/p" } (fun _ => .ok "x") "e").1
      (by decide) (by decide),
   (getValue_conflicting_and_missing { Value := "", SSMParam := "" } (fun _ => .ok "x") "e").2
      rfl rfl⟩

/-- Claim C6: with only the inline literal set, GetValue returns the
literal verbatim and makes no remote call, for any store and any
environment string. -/
theorem getValue_literal (cv : ConfigValue) (store : String → Except String String)
    (placeholder : String) (hs : cv.SSMParam = "") (hv : cv.Value ≠ "") :
    GetValue cv store placeholder = (.ok cv.Value, []) := by
  simp [GetValue, hs, hv]

/-- Witness for C6 at a concrete literal. -/
theorem getValue_literal_witness :
    GetValue { Value := "db.internal", SSMParam := "" } (fun _ => .error "down") "prod" =
      (.ok "db.internal", []) :=
  getValue_literal { Value := "db.internal", SSMParam := "" } (fun _ => .error "down") "prod"
    rfl (by decide)

/-- Claim C7: with only the reference path set, GetValue calls the remote
store exactly once, with the path after replacing every occurrence of the
placeholder token by the environment string, and returns exactly what the
store returns. -/
theorem getValue_reference (cv : ConfigValue) (store : String → Except String String)
    (env : String) (hv : cv.Value = "") (hs : cv.SSMParam ≠ "") :
    GetValue cv store env =
      (store (replaceAll cv.SSMParam placeholderToken env),
       [.paramCall (replaceAll cv.SSMParam placeholderToken env)]) := by
  simp [GetValue, hv, hs]

/-- Witness for C7: the placeholder in the reference path is substituted in
every occurrence and the substituted path is the one remote call made. -/
theorem getValue_reference_witness :
    GetValue { Value := "", SSMParam := "/${PLACEHOLDER}/db/${PLACEHOLDER}/host" }
        (fun p => .ok p) "prod" =
      (.ok "/prod/db/prod/host", [.paramCall "/prod/db/prod/host"]) := by
  rw [getValue_reference { Value := "", SSMParam := "/${PLACEHOLDER}/db/${PLACEHOLDER}/host" }
    (fun p => .ok p) "prod" rfl (by decide)]
  decide

/-- Claim C9: a ConfigValue whose inline literal is the empty string and
whose reference path is empty resolves to the missing-source error for
every store and every environment: an intentionally empty literal is
indistinguishable from an absent value. -/
theorem getValue_empty_literal_missing (cv : ConfigValue)
    (store : String → Except String String) (placeholder : String)
    (hv : cv.Value = "") (hs : cv.SSMParam = "") :
    GetValue cv store placeholder =
      (.error "no value or SSM parameter specified", []) := by
  simp [GetValue, hv, hs]

/-- Witness for C9 at the empty ConfigValue. -/
theorem getValue_empty_literal_missing_witness :
    GetValue { Value := "", SSMParam := "" } (fun p => .ok p) "prod" =
      (.error "no value or SSM parameter specified", []) :=
  getValue_empty_literal_missing { Value := "", SSMParam := "" } (fun p => .ok p) "prod" rfl rfl

/-- The scanning loop returns a port exactly when that port is the first
available one at or after the scan origin and within the fuel window. -/
theorem findAvailablePortAux_some_iff (avail : Int → Bool) (n : Nat) :
    ∀ port p : Int, findAvailablePortAux avail n port = some p ↔
      (port ≤ p ∧ p < port + (n : Int) ∧ avail p = true ∧
        ∀ q, port ≤ q → q < p → avail q = false) := by
  induction n with
  | zero =>
    intro port p
    simp only [findAvailablePortAux]
    constructor
    · intro h
      cases h
    · rintro ⟨h1, h2, _, _⟩
      exfalso
      omega
  | succ n ih =>
    intro port p
    simp only [findAvailablePortAux]
    cases h : avail port with
    | true =>
      rw [if_pos rfl]
      constructor
      · intro hp
        injection hp with hp
        subst hp
        refine ⟨le_refl _, by omega, h, ?_⟩
        intro q hq1 hq2
        exfalso
        omega
      · rintro ⟨h1, h2, h3, h4⟩
        by_cases hne : p = port
        · rw [hne]
        · have hfalse := h4 port (le_refl _) (by omega)
          rw [h] at hfalse
          cases hfalse
    | false =>
      rw [if_neg (by simp)]
      rw [ih (port + 1) p]
      constructor
      · rintro ⟨h1, h2, h3, h4⟩
        refine ⟨by omega, by omega, h3, ?_⟩
        intro q hq1 hq2
        by_cases hq : q = port
        · rw [hq]
          exact h
        · exact h4 q (by omega) hq2
      · rintro ⟨h1, h2, h3, h4⟩
        have hp : p ≠ port := by
          intro hh
          rw [← hh] at h
          rw [h3] at h
          cases h
        refine ⟨by omega, by omega, h3, ?_⟩
        intro q hq1 hq2
        exact h4 q (by omega) hq2

/-- The scanning loop exhausts exactly when no port in the fuel window is
available. -/
theorem findAvailablePortAux_none_iff (avail : Int → Bool) (n : Nat) :
    ∀ port : Int, findAvailablePortAux avail n port = none ↔
      ∀ q, port ≤ q → q < port + (n : Int) → avail q = false := by
  induction n with
  | zero =>
    intro port
    simp only [findAvailablePortAux]
    constructor
    · intro _ q h1 h2
      exfalso
      omega
    · intro _
      trivial
  | succ n ih =>
    intro port
    simp only [findAvailablePortAux]
    cases h : avail port with
    | true =>
      rw [if_pos rfl]
      constructor
      · intro hh
        cases hh
      · intro hR
        have hfalse := hR port (le_refl _) (by omega)
        rw [h] at hfalse
        cases hfalse
    | false =>
      rw [if_neg (by simp)]
      rw [ih (port + 1)]
      constructor
      · intro hR q h1 h2
        by_cases hq : q = port
        · rw [hq]
          exact h
        · exact hR q (by omega) (by omega)
      · intro hR q h1 h2
        exact hR q (by omega) (by omega)

/-- Claim C8: findAvailablePort scans the inclusive range in ascending
order and succeeds exactly on the first available port; it fails with the
no-ports-available error when every port of the range is taken; and when
exactly one port of the range is free, it returns exactly that port. -/
theorem findAvailablePort_spec (avail : Int → Bool) (start e P : Int) :
    (findAvailablePort avail start e = .ok P ↔
      (start ≤ P ∧ P ≤ e ∧ avail P = true ∧
        ∀ q, start ≤ q → q < P → avail q = false)) ∧
    ((∀ q, start ≤ q → q ≤ e → avail q = false) →
      findAvailablePort avail start e = .error s!"no available ports in range {start}-{e}") ∧
    ((∀ q, start ≤ q → q ≤ e → (avail q = true ↔ q = P)) → start ≤ P → P ≤ e →
      findAvailablePort avail start e = .ok P) := by
  have hok : findAvailablePort avail start e = .ok P ↔
      (start ≤ P ∧ P ≤ e ∧ avail P = true ∧
        ∀ q, start ≤ q → q < P → avail q = false) := by
    unfold findAvailablePort
    cases haux : findAvailablePortAux avail (e + 1 - start).toNat start with
    | some p =>
      rw [findAvailablePortAux_some_iff] at haux
      obtain ⟨h1, h2, h3, h4⟩ := haux
      simp only []
      constructor
      · intro hh
        injection hh with hh
        subst hh
        exact ⟨h1, by omega, h3, h4⟩
      · rintro ⟨g1, g2, g3, g4⟩
        have hpP : p = P := by
          by_contra hne
          rcases lt_or_gt_of_ne hne with hlt | hgt
          · have hf := g4 p h1 hlt
            rw [h3] at hf
            cases hf
          · have hf := h4 P g1 hgt
            rw [g3] at hf
            cases hf
        rw [hpP]
    | none =>
      rw [findAvailablePortAux_none_iff] at haux
      simp only []
      constructor
      · intro hh
        cases hh
      · rintro ⟨g1, g2, g3, _⟩
        have hf := haux P g1 (by omega)
        rw [g3] at hf
        cases hf
  refine ⟨hok, ?_, ?_⟩
  · intro hall
    unfold findAvailablePort
    cases haux : findAvailablePortAux avail (e + 1 - start).toNat start with
    | some p =>
      rw [findAvailablePortAux_some_iff] at haux
      obtain ⟨h1, h2, h3, _⟩ := haux
      have hf := hall p h1 (by omega)
      rw [h3] at hf
      cases hf
    | none => rfl
  · intro huniq h1 h2
    rw [hok]
    refine ⟨h1, h2, (huniq P h1 h2).mpr rfl, ?_⟩
    intro q hq1 hq2
    cases hq : avail q with
    | false => rfl
    | true =>
      have := (huniq q hq1 (by omega)).mp hq
      omega

/-- Witness for C8: in the range 5000-5009 with exactly port 5003 free,
the allocator returns 5003; with every port taken it fails. -/
theorem findAvailablePort_spec_witness :
    findAvailablePort (fun p => p == 5003) 5000 5009 = .ok 5003 ∧
    findAvailablePort (fun _ => false) 5000 5009 =
      .error "no available ports in range 5000-5009" := by
  constructor
  · exact (findAvailablePort_spec (fun p => p == 5003) 5000 5009 5003).2.2
      (by
        intro q h1 h2
        simp)
      (by omega) (by omega)
  · exact (findAvailablePort_spec (fun _ => false) 5000 5009 0).2.1
      (fun q h1 h2 => rfl)

/-- Claim C1 (code bug in CleanupTunnels): with three registered sessions
whose second kill fails, the cleanup returns the error of the second kill
but stops iterating there: a termination is attempted only on the first and
second sessions, never on the third, contradicting the contract that every
registered session is attempted. -/
theorem cleanupTunnels_stops_at_first_error :
    CleanupTunnels
      (fun a => if a.localPort == 5001 then .error "operation not permitted" else .ok ())
      [("svc1", ⟨"i-0abc", "h1", "3306", 5000⟩),
       ("svc2", ⟨"i-0abc", "h2", "5432", 5001⟩),
       ("svc3", ⟨"i-0abc", "h3", "6379", 5002⟩)] =
      (some "failed to kill tunnel process: operation not permitted", ["svc1", "svc2"]) := by
  decide

/-- Counterexample to claim C2 as stated: a concrete service with one
extra detail path whose batched fetch errors; GetServiceDetails returns the
map without error, but the map holds only host and remote_port — the
local_port_range key, which the claim asserts present, is absent because
the error path returns before that key is added. -/
theorem getServiceDetails_fetch_error_cex :
    GetServiceDetails (fun _ => .ok "x") (fun _ => .error "no parameters found") "prod"
      { Host := { Value := "db.example.com", SSMParam := "" }
        RemotePort := { Value := "5432", SSMParam := "" }
        LocalPortRange := { Start := 5000, End := 5009 }
        ServiceDetails := ["/${PLACEHOLDER}/db/password"] } =
      .ok [("host", "db.example.com"), ("remote_port", "5432")] ∧
    getKey [("host", "db.example.com"), ("remote_port", "5432")] "local_port_range" =
      (none : Option String) := by
  constructor
  · decide
  · decide

/-- Claim C2 (amended): when host and remote-port resolution succeed, extra
detail paths are configured and the batched fetch errors, GetServiceDetails
returns no error and the partial map contains the host and remote_port keys;
the local_port_range key is absent on this path, because the early return
taken on the fetch error precedes the line that adds it. -/
theorem getServiceDetails_fetch_error_partial (store : String → Except String String)
    (getParams : List String → Except String (List Param)) (env : String)
    (sc : ServiceConfig) (h r e : String)
    (hh : (GetValue sc.Host store env).1 = .ok h)
    (hr : (GetValue sc.RemotePort store env).1 = .ok r)
    (hsd : sc.ServiceDetails.length > 0)
    (hgp : getParams (sc.ServiceDetails.map
      (fun path => replaceAll path placeholderToken env)) = .error e) :
    GetServiceDetails store getParams env sc = .ok [("host", h), ("remote_port", r)] ∧
    getKey [("host", h), ("remote_port", r)] "local_port_range" = none := by
  constructor
  · unfold GetServiceDetails
    rw [hh, hr]
    simp only [hsd, if_pos, hgp]
    rfl
  · rfl

/-- Witness for the amended C2 at a concrete service. -/
theorem getServiceDetails_fetch_error_partial_witness :
    GetServiceDetails (fun _ => .ok "x") (fun _ => .error "boom") "prod"
      { Host := { Value := "h1", SSMParam := "" }
        RemotePort := { Value := "r1", SSMParam := "" }
        LocalPortRange := { Start := 5000, End := 5009 }
        ServiceDetails := ["/${PLACEHOLDER}/db/a"] } =
      .ok [("host", "h1"), ("remote_port", "r1")] ∧
    getKey [("host", "h1"), ("remote_port", "r1")] "local_port_range" = none :=
  getServiceDetails_fetch_error_partial (fun _ => .ok "x") (fun _ => .error "boom") "prod"
    { Host := { Value := "h1", SSMParam := "" }
      RemotePort := { Value := "r1", SSMParam := "" }
      LocalPortRange := { Start := 5000, End := 5009 }
      ServiceDetails := ["/${PLACEHOLDER}/db/a"] }
    "h1" "r1" "boom" rfl rfl (by decide) rfl

/-- Claim C10: every fetched extra-detail parameter is stored under the
last slash-separated segment of its name.  Consequently two fetched
parameters whose names share a last segment collide and the later one wins,
and a fetched parameter whose last segment is host or remote_port silently
overwrites the resolved host or remote-port entry of the returned map. -/
theorem getServiceDetails_last_segment (store : String → Except String String)
    (getParams : List String → Except String (List Param)) (env : String)
    (sc : ServiceConfig) (h r : String)
    (hh : (GetValue sc.Host store env).1 = .ok h)
    (hr : (GetValue sc.RemotePort store env).1 = .ok r)
    (hsd : sc.ServiceDetails.length > 0) :
    (∀ n1 v1 n2 v2 k,
      getParams (sc.ServiceDetails.map
        (fun path => replaceAll path placeholderToken env)) =
          .ok [{ Name := some n1, Value := some v1 }, { Name := some n2, Value := some v2 }] →
      lastSegment n1 = k → lastSegment n2 = k → k ≠ "local_port_range" →
      ∃ m, GetServiceDetails store getParams env sc = .ok m ∧ getKey m k = some v2) ∧
    (∀ n v key,
      getParams (sc.ServiceDetails.map
        (fun path => replaceAll path placeholderToken env)) =
          .ok [{ Name := some n, Value := some v }] →
      lastSegment n = key → (key = "host" ∨ key = "remote_port") →
      ∃ m, GetServiceDetails store getParams env sc = .ok m ∧ getKey m key = some v) := by
  constructor
  · intro n1 v1 n2 v2 k hgp hk1 hk2 hk
    have heq : GetServiceDetails store getParams env sc =
        .ok (mapInsert
          (mapInsert (mapInsert [("host", h), ("remote_port", r)] (lastSegment n1) v1)
            (lastSegment n2) v2)
          "local_port_range" (portRangeStr sc)) := by
      unfold GetServiceDetails
      rw [hh, hr]
      simp only [hsd, if_pos, hgp]
      rfl
    refine ⟨_, heq, ?_⟩
    rw [getKey_mapInsert, if_neg hk, hk1, hk2, getKey_mapInsert, if_pos rfl]
  · intro n v key hgp hkey hor
    have heq : GetServiceDetails store getParams env sc =
        .ok (mapInsert
          (mapInsert [("host", h), ("remote_port", r)] (lastSegment n) v)
          "local_port_range" (portRangeStr sc)) := by
      unfold GetServiceDetails
      rw [hh, hr]
      simp only [hsd, if_pos, hgp]
      rfl
    have hne : key ≠ "local_port_range" := by
      rcases hor with hko | hko
      · rw [hko]
        decide
      · rw [hko]
        decide
    refine ⟨_, heq, ?_⟩
    rw [getKey_mapInsert, if_neg hne, hkey, getKey_mapInsert, if_pos rfl]

/-- Witness for C10: a collision on segment k resolved in favour of the
later parameter, and a parameter whose last segment is host overwriting the
resolved host value. -/
theorem getServiceDetails_last_segment_witness :
    (∃ m, GetServiceDetails (fun _ => .ok "x")
        (fun _ => .ok [{ Name := some "/prod/a/k", Value := some "v1" },
                       { Name := some "/prod/b/k", Value := some "v2" }]) "prod"
        { Host := { Value := "h1", SSMParam := "" }
          RemotePort := { Value := "r1", SSMParam := "" }
          LocalPortRange := { Start := 5000, End := 5009 }
          ServiceDetails := ["/${PLACEHOLDER}/x"] } = .ok m ∧ getKey m "k" = some "v2") ∧
    (∃ m, GetServiceDetails (fun _ => .ok "x")
        (fun _ => .ok [{ Name := some "/prod/c/host", Value := some "stolen" }]) "prod"
        { Host := { Value := "h1", SSMParam := "" }
          RemotePort := { Value := "r1", SSMParam := "" }
          LocalPortRange := { Start := 5000, End := 5009 }
          ServiceDetails := ["/${PLACEHOLDER}/x"] } = .ok m ∧ getKey m "host" = some "stolen") := by
  constructor
  · exact (getServiceDetails_last_segment (fun _ => .ok "x")
      (fun _ => .ok [{ Name := some "/prod/a/k", Value := some "v1" },
                     { Name := some "/prod/b/k", Value := some "v2" }]) "prod"
      { Host := { Value := "h1", SSMParam := "" }
        RemotePort := { Value := "r1", SSMParam := "" }
        LocalPortRange := { Start := 5000, End := 5009 }
        ServiceDetails := ["/${PLACEHOLDER}/x"] }
      "h1" "r1" rfl rfl (by decide)).1
      "/prod/a/k" "v1" "/prod/b/k" "v2" "k" rfl (by decide) (by decide) (by decide)
  · exact (getServiceDetails_last_segment (fun _ => .ok "x")
      (fun _ => .ok [{ Name := some "/prod/c/host", Value := some "stolen" }]) "prod"
      { Host := { Value := "h1", SSMParam := "" }
        RemotePort := { Value := "r1", SSMParam := "" }
        LocalPortRange := { Start := 5000, End := 5009 }
        ServiceDetails := ["/${PLACEHOLDER}/x"] }
      "h1" "r1" rfl rfl (by decide)).2
      "/prod/c/host" "stolen" "host" rfl (by decide) (Or.inl rfl)

/-- Is an event a describe-instances call (a jumphost resolution)? -/
def isDescribe : Event → Bool
  | .describeCall _ => true
  | _ => false

/-- GetValue never performs a describe-instances call. -/
theorem getValue_no_describe (cv : ConfigValue) (store : String → Except String String)
    (ph : String) : ∀ ev ∈ (GetValue cv store ph).2, isDescribe ev = false := by
  intro ev hev
  unfold GetValue at hev
  split at hev
  · simp at hev
  · split at hev
    · simp at hev
      rw [hev]
      rfl
    · split at hev
      · simp at hev
      · simp at hev

/-- The tail of CreateTunnel preserves the cached jumphost and never
performs a describe-instances call. -/
theorem createTunnelRest_state_events (w : World) (st : ManagerState) (n : String)
    (sc : ServiceConfig) (inst : Instance) (host remotePort : String) :
    (createTunnelRest w st n sc inst host remotePort).1.jumphost = st.jumphost ∧
    ∀ ev ∈ (createTunnelRest w st n sc inst host remotePort).2.2, isDescribe ev = false := by
  unfold createTunnelRest
  split
  · exact ⟨rfl, by intro ev hev; simp at hev⟩
  · split
    · refine ⟨rfl, ?_⟩
      intro ev hev
      simp at hev
      rw [hev]
      rfl
    · refine ⟨rfl, ?_⟩
      intro ev hev
      simp at hev
      rw [hev]
      rfl

/-- A successful tail of CreateTunnel leaves the registry equal to the old
registry plus one insert under the service name. -/
theorem createTunnelRest_ok_registers (w : World) (st : ManagerState) (n : String)
    (sc : ServiceConfig) (inst : Instance) (host remotePort : String) :
    (createTunnelRest w st n sc inst host remotePort).2.1 = .ok () →
    ∃ args, (createTunnelRest w st n sc inst host remotePort).1.tunnels =
      mapInsert st.tunnels n args := by
  unfold createTunnelRest
  split
  · intro h
    exact Except.noConfusion h
  · split
    · intro h
      exact Except.noConfusion h
    · intro _
      exact ⟨_, rfl⟩

/-- CreateTunnel on a state with a cached jumphost keeps that jumphost and
never performs a describe-instances call. -/
theorem createTunnel_some_jumphost (w : World) (env : String) (cfg : Config)
    (st : ManagerState) (n : String) (sc : ServiceConfig) (inst : Instance)
    (hj : st.jumphost = some inst) :
    (CreateTunnel w env cfg st n sc).1.jumphost = some inst ∧
    ∀ ev ∈ (CreateTunnel w env cfg st n sc).2.2, isDescribe ev = false := by
  unfold CreateTunnel
  split
  · rename_i e tr1 heq
    refine ⟨hj, ?_⟩
    intro ev hev
    apply getValue_no_describe sc.Host w.store env ev
    rw [heq]
    exact hev
  · rename_i host tr1 heq
    split
    · rename_i e tr2 heq2
      refine ⟨hj, ?_⟩
      intro ev hev
      rcases List.mem_append.mp hev with hin | hin
      · apply getValue_no_describe sc.Host w.store env ev
        rw [heq]
        exact hin
      · apply getValue_no_describe sc.RemotePort w.store env ev
        rw [heq2]
        exact hin
    · rename_i rp tr2 heq2
      split
      · rename_i inst1 hjp
        have hinst : inst1 = inst := by
          rw [hj] at hjp
          injection hjp with hh
          exact hh.symm
        subst hinst
        split
        · rename_i st2 r tr3 heqT
          have hTprop := createTunnelRest_state_events w st n sc inst1 host rp
          rw [heqT] at hTprop
          refine ⟨hTprop.1.trans hj, ?_⟩
          intro ev hev
          rcases List.mem_append.mp hev with hin | hin
          · rcases List.mem_append.mp hin with hin2 | hin2
            · apply getValue_no_describe sc.Host w.store env ev
              rw [heq]
              exact hin2
            · apply getValue_no_describe sc.RemotePort w.store env ev
              rw [heq2]
              exact hin2
          · exact hTprop.2 ev hin
      · rename_i hjp
        rw [hj] at hjp
        exact Option.noConfusion hjp

/-- The per-service loop keeps the cached jumphost and never performs a
describe-instances call when the jumphost is already cached. -/
theorem createLoop_some_jumphost (w : World) (env : String) (cfg : Config)
    (services : List String) :
    ∀ (st : ManagerState) (le : Option String) (inst : Instance),
      st.jumphost = some inst →
      (createLoop w env cfg services st le).1.jumphost = some inst ∧
      ∀ ev ∈ (createLoop w env cfg services st le).2.2, isDescribe ev = false := by
  induction services with
  | nil =>
    intro st le inst hj
    refine ⟨hj, ?_⟩
    intro ev hev
    have hev2 : ev ∈ ([] : List Event) := hev
    simp at hev2
  | cons name rest ih =>
    intro st le inst hj
    unfold createLoop
    split
    · rename_i e heq
      exact ih st (some e) inst hj
    · rename_i sc1 heq
      split
      · rename_i st1 u tr1 heqT
        have hCT := createTunnel_some_jumphost w env cfg st name sc1 inst hj
        rw [heqT] at hCT
        have hst1 : st1.jumphost = some inst := hCT.1
        split
        · rename_i st2 le2 tr2 heqL
          have hih := ih st1 le inst hst1
          rw [heqL] at hih
          refine ⟨hih.1, ?_⟩
          intro ev hev
          rcases List.mem_append.mp hev with hin | hin
          · exact hCT.2 ev hin
          · exact hih.2 ev hin
      · rename_i st1 e tr1 heqT
        have hCT := createTunnel_some_jumphost w env cfg st name sc1 inst hj
        rw [heqT] at hCT
        have hst1 : st1.jumphost = some inst := hCT.1
        split
        · rename_i st2 le2 tr2 heqL
          have hih := ih st1 (some e) inst hst1
          rw [heqL] at hih
          refine ⟨hih.1, ?_⟩
          intro ev hev
          rcases List.mem_append.mp hev with hin | hin
          · exact hCT.2 ev hin
          · exact hih.2 ev hin

/-- Claim C4: in every CreateTunnels batch the jumphost is resolved exactly
once, before any per-service work (the trace starts with the one
describe-instances call and contains no other); and when zero running
instances match the substituted filter the whole batch aborts with the
no-healthy-jumphost error, with no service attempted and no session
registered (the state, in particular the registry, is returned unchanged,
and the trace holds nothing but the one describe call). -/
theorem createTunnels_jumphost_once (w : World) (env : String) (cfg : Config)
    (st : ManagerState) (services : List String) (f : String)
    (hf : f = substFilter cfg env) :
    (∃ rest, (CreateTunnels w env cfg st services).2.2 = Event.describeCall f :: rest ∧
      ∀ ev ∈ rest, isDescribe ev = false) ∧
    (∀ out emsg, w.describe f = .ok out →
      out.filter (fun i => i.State == some "running") = [] →
      emsg = s!"no running instances found matching filter: {f}" →
      CreateTunnels w env cfg st services =
        (st, .error s!"failed to find jumphost instance: {emsg}",
         [Event.describeCall f])) := by
  subst hf
  constructor
  · unfold CreateTunnels
    split
    · rename_i e heq
      refine ⟨[], rfl, ?_⟩
      intro ev hev
      simp at hev
    · rename_i inst heq
      split
      · rename_i st2 lastError tr2 heqL
        have hprop := createLoop_some_jumphost w env cfg services
          { st with jumphost := some inst } none inst rfl
        rw [heqL] at hprop
        split
        · exact ⟨tr2, rfl, hprop.2⟩
        · exact ⟨tr2, rfl, hprop.2⟩
  · intro out emsg hout hfilter hemsg
    subst hemsg
    unfold substFilter at hout
    have hjump : managerGetJumphost w cfg env =
        .error s!"no running instances found matching filter: {substFilter cfg env}" := by
      simp only [managerGetJumphost, clientGetJumphost, hout, hfilter, List.isEmpty_nil,
        if_true]
      rfl
    simp only [CreateTunnels, hjump]

/-- A CreateTunnel whose host resolution fails changes nothing: it returns
the state unchanged together with the wrapped host error. -/
theorem createTunnel_host_error (w : World) (env : String) (cfg : Config)
    (st : ManagerState) (n : String) (sc : ServiceConfig) (e : String)
    (he : (GetValue sc.Host w.store env).1 = .error e) :
    (CreateTunnel w env cfg st n sc).1 = st ∧
    (CreateTunnel w env cfg st n sc).2.1 =
      .error s!"failed to get host for {n}: {e}" := by
  unfold CreateTunnel
  split
  · rename_i e1 tr1 heq
    rw [heq] at he
    have he2 : (Except.error e1 : Except String String) = .error e := he
    injection he2 with hh
    subst hh
    exact ⟨rfl, rfl⟩
  · rename_i host tr1 heq
    rw [heq] at he
    have he2 : (Except.ok host : Except String String) = .error e := he
    exact Except.noConfusion he2

/-- A successful CreateTunnel leaves the registry equal to the old registry
plus one insert under the service name. -/
theorem createTunnel_ok_registers (w : World) (env : String) (cfg : Config)
    (st : ManagerState) (n : String) (sc : ServiceConfig) :
    (CreateTunnel w env cfg st n sc).2.1 = .ok () →
    ∃ args, (CreateTunnel w env cfg st n sc).1.tunnels = mapInsert st.tunnels n args := by
  unfold CreateTunnel
  split
  · rename_i e tr1 heq
    intro h
    have h2 : (Except.error s!"failed to get host for {n}: {e}" : Except String Unit) =
      .ok () := h
    exact Except.noConfusion h2
  · rename_i host tr1 heq
    split
    · rename_i e tr2 heq2
      intro h
      have h2 : (Except.error s!"failed to get remote port for {n}: {e}" :
        Except String Unit) = .ok () := h
      exact Except.noConfusion h2
    · rename_i rp tr2 heq2
      split
      · rename_i inst1 hjp
        split
        · rename_i st2 r tr3 heqT
          intro h
          have hr : (createTunnelRest w st n sc inst1 host rp).2.1 = .ok () := by
            rw [heqT]
            exact h
          obtain ⟨args, hargs⟩ := createTunnelRest_ok_registers w st n sc inst1 host rp hr
          rw [heqT] at hargs
          exact ⟨args, hargs⟩
      · rename_i hjp
        split
        · rename_i e heqJ
          intro h
          have h2 : (Except.error s!"failed to find jumphost instance: {e}" :
            Except String Unit) = .ok () := h
          exact Except.noConfusion h2
        · rename_i inst2 heqJ
          split
          · rename_i st2 r tr3 heqT
            intro h
            have hr : (createTunnelRest w { st with jumphost := some inst2 } n sc inst2
                host rp).2.1 = .ok () := by
              rw [heqT]
              exact h
            obtain ⟨args, hargs⟩ := createTunnelRest_ok_registers w
              { st with jumphost := some inst2 } n sc inst2 host rp hr
            rw [heqT] at hargs
            exact ⟨args, hargs⟩

/-- Claim C3: in a batch over services A then B where the tunnel for A is
created successfully and the host resolution of B fails, the session for A
is registered in the final registry (never torn down by the sibling
failure) and the batch returns a single error whose text names B and its
failure. -/
theorem createTunnels_partial_success (w : World) (env : String) (cfg : Config)
    (st0 : ManagerState) (A B : String) (scA scB : ServiceConfig) (inst : Instance)
    (stA : ManagerState) (trA : List Event) (eB msgB : String)
    (hj : managerGetJumphost w cfg env = .ok inst)
    (hA : GetServiceConfig cfg A = .ok scA)
    (hB : GetServiceConfig cfg B = .ok scB)
    (hAok : CreateTunnel w env cfg { st0 with jumphost := some inst } A scA =
      (stA, .ok (), trA))
    (hBerr : (GetValue scB.Host w.store env).1 = .error eB)
    (hmsg : msgB = s!"failed to get host for {B}: {eB}") :
    (∃ args, getKey (CreateTunnels w env cfg st0 [A, B]).1.tunnels A = some args) ∧
    (CreateTunnels w env cfg st0 [A, B]).2.1 =
      .error s!"one or more tunnels failed to create: {msgB}" := by
  rcases hBt : CreateTunnel w env cfg stA B scB with ⟨stB, rB, trB⟩
  have hBcomp := createTunnel_host_error w env cfg stA B scB eB hBerr
  rw [hBt] at hBcomp
  have hstB : stB = stA := hBcomp.1
  have hrB : rB = .error msgB := by
    rw [hmsg]
    exact hBcomp.2
  rw [hstB, hrB] at hBt
  have hloop : createLoop w env cfg [A, B] { st0 with jumphost := some inst } none =
      (stA, some msgB, trA ++ (trB ++ [])) := by
    simp only [createLoop, hA, hAok, hB, hBt]
  have hmain : CreateTunnels w env cfg st0 [A, B] =
      (stA, .error s!"one or more tunnels failed to create: {msgB}",
       .describeCall (substFilter cfg env) :: (trA ++ (trB ++ []))) := by
    simp only [CreateTunnels, hj, hloop]
  rw [hmain]
  refine ⟨?_, rfl⟩
  have hok : (CreateTunnel w env cfg { st0 with jumphost := some inst } A scA).2.1 =
      .ok () := by
    rw [hAok]
  obtain ⟨args, hargs⟩ := createTunnel_ok_registers w env cfg
    { st0 with jumphost := some inst } A scA hok
  rw [hAok] at hargs
  have hargs2 : stA.tunnels = mapInsert st0.tunnels A args := hargs
  have hfin : getKey stA.tunnels A = some args := by
    rw [hargs2, getKey_mapInsert, if_pos rfl]
  exact ⟨args, hfin⟩

/-- Witness for C3: a concrete batch over svcA (succeeds) and svcB (host
resolution fails): svcA stays registered and the batch error names svcB. -/
theorem createTunnels_partial_success_witness :
    (∃ args, getKey (CreateTunnels exWorld "test" exConfig
      { jumphost := none, tunnels := [] } ["svcA", "svcB"]).1.tunnels "svcA" = some args) ∧
    (CreateTunnels exWorld "test" exConfig
      { jumphost := none, tunnels := [] } ["svcA", "svcB"]).2.1 =
      .error "one or more tunnels failed to create: failed to get host for svcB: parameter not found" := by
  have hthm := createTunnels_partial_success exWorld "test" exConfig
    { jumphost := none, tunnels := [] } "svcA" "svcB" exScA exScB exInstance
    exStA [Event.startProc "i-0abc" "hostA" "3306" 5000] "parameter not found"
    "failed to get host for svcB: parameter not found"
    (by decide) (by decide) (by decide) (by decide) (by decide) (by decide)
  exact ⟨hthm.1, hthm.2.trans (by decide)⟩

/-- Witness for C4: with only a stopped instance matching, the concrete
batch aborts with the no-healthy-jumphost error, the state unchanged and
the trace holding exactly the one describe call. -/
theorem createTunnels_jumphost_once_witness :
    CreateTunnels exWorldStopped "test" exConfig
      { jumphost := none, tunnels := [] } ["svcA"] =
      ({ jumphost := none, tunnels := [] },
       .error "failed to find jumphost instance: no running instances found matching filter: test-ecs",
       [Event.describeCall "test-ecs"]) := by
  have hthm := (createTunnels_jumphost_once exWorldStopped "test" exConfig
    { jumphost := none, tunnels := [] } ["svcA"] "test-ecs" (by decide)).2
    [exStopped] "no running instances found matching filter: test-ecs"
    (by decide) (by decide) (by decide)
  exact hthm.trans (by decide)

end TunnelGo
